import Mathlib

/-!
Verification development for the `pymemtools` repository.

This file gives a shallow embedding, in Lean, of the parts of the code the
frozen claims are about:

* `memtools/storages/memcache.py` — the `MemcacheMemory` gateway and the
  `MemcacheMemoryPool` connection pool (constructor, `count`, `grow`,
  `shrink`, `_claim_client`, `_return_client`, and the dictionary-style
  gateway operations `__getitem__` / `__setitem__` / `__delitem__`);
* `memtools/storages/pyredis.py` — the `RedisMemory` gateway;
* `memtools/pattern.py` — `Memoized.__create_key` and `Memoized.__call__`
  (duplicated verbatim as `Memorized` in `memory.py`).

Modelling conventions:

* Python exceptions become an explicit `Except PyErr` result.  A `try/finally`
  whose `finally` block itself raises replaces the in-flight exception (and
  discards an in-flight return value), exactly as in CPython; this is encoded
  directly in the definitions of the pool's gateway operations.
* The pool's lock (`__clients_lock`) only serialises access; the embedding is
  the single-threaded semantics of the code, so the lock is erased.
* Machine integers are `Int` (Python ints are unbounded, so no wrap-around is
  involved); member counts are `Nat` lengths of the member list.
* The backend clients (`memcache.Client`, `redis.Redis`) are external
  collaborators; they are modelled as finite key/value maps with exactly the
  interface the gateways rely on (`get` returning the stored value or `None`
  when missing for memcache, `get` returning the stored bytes or `None` for
  redis, `delete` reporting the number of removed keys).
* `pickle.dumps` / `pickle.loads` are modelled as an injective wrapping
  (`Pickled.dumps`) with `loads (dumps v) = v`.
* The pluggable hashing object (default `hashlib.md5`) is modelled as an
  ideal collision-free accumulator: seeding records the seed string, each
  `update` appends the updated string, and `hexdigest` is abstracted as the
  accumulated trace (`List String`).
-/

/-- Python exception classes relevant to the embedded code.  `poolExhausted`
models the `PoolExhausted` error named by the specification's error taxonomy
(no such class exists anywhere in the source; it is included so that claims
about it can be stated). -/
inductive PyErr where
  | keyError
  | indexError
  | typeError
  | attributeError
  | unboundLocalError
  | poolExhausted
  deriving DecidableEq, Repr

/-- Python values handled by the gateways and by key derivation: `None`,
instances of the `NotSet` sentinel class, ints, strings, tuples and dicts
(dict keys are modelled as strings, which is what the memoizer passes). -/
inductive PyObj where
  | pyNone
  | pyNotSet
  | pyInt (n : Int)
  | pyString (s : String)
  | pyTuple (elems : List PyObj)
  | pyDict (entries : List (String × PyObj))

mutual

/-- Model of Python's `str(x)` on `PyObj` values: a deterministic textual
form.  The exact text of the builtin is immaterial to every claim; what
matters is that it is a fixed total function. -/
def pyStr : PyObj → String
  | .pyNone => "None"
  | .pyNotSet => "NotSet()"
  | .pyInt n => toString n
  | .pyString s => s
  | .pyTuple l => "(" ++ pyStrList l ++ ")"
  | .pyDict l => "\x7b" ++ pyStrPairs l ++ "\x7d"

/-- Comma-separated `str` forms of a tuple's elements. -/
def pyStrList : List PyObj → String
  | [] => ""
  | [x] => pyStr x
  | x :: y :: rest => pyStr x ++ ", " ++ pyStrList (y :: rest)

/-- Comma-separated `str` forms of a dict's entries. -/
def pyStrPairs : List (String × PyObj) → String
  | [] => ""
  | [(k, v)] => k ++ ": " ++ pyStr v
  | (k, v) :: p :: rest => k ++ ": " ++ pyStr v ++ ", " ++ pyStrPairs (p :: rest)

end

/-- Model of Python's `value is None` identity test. -/
def isNone : PyObj → Bool
  | .pyNone => true
  | _ => false

/-- Model of Python's `isinstance(value, NotSet)` test. -/
def isNotSet : PyObj → Bool
  | .pyNotSet => true
  | _ => false

/-! ## The connection pool (`MemcacheMemoryPool`, memtools/storages/memcache.py) -/

/-- State of a `MemcacheMemoryPool`: the `_clients` list (members identified
by the order in which they were constructed), the `lower_limit` and
`upper_limit` attributes, and a counter supplying identities for freshly
constructed `MemcacheMemory` gateways.  The connection parameters, TTL and
logger configuration play no role in any claim and are omitted. -/
structure PoolState where
  clients : List Nat
  lower : Int
  upper : Int
  nextId : Nat
  deriving DecidableEq, Repr

/-- Model of Python's `list.pop()` with no index: removes and returns the
last element, or fails (with `IndexError`) on an empty list. -/
def pyPop : List Nat → Option (Nat × List Nat)
  | [] => none
  | x :: xs => some ((x :: xs).getLast (by simp), (x :: xs).dropLast)

/-- `MemcacheMemoryPool.__init__`: builds
`[MemcacheMemory(...) for o in xrange(0, abs(upper_limit + lower_limit) / 2)]`
(Python 2 floor division), records both limits, and initialises the lock and
logger (erased here). -/
def mkPool (lower upper : Int) : PoolState :=
  let n := (upper + lower).natAbs / 2
  ⟨List.range n, lower, upper, n⟩

/-- `MemcacheMemoryPool.count`: `len(self._clients)` under the lock. -/
def count (s : PoolState) : Nat :=
  s.clients.length

/-- `MemcacheMemoryPool.grow`: `for i in range(number): self._clients.append(
MemcacheMemory(...))`.  `range` of a non-positive number is empty, so
`Int.toNat` gives the iteration count; each iteration appends a freshly
constructed gateway. -/
def grow (s : PoolState) (number : Int) : PoolState :=
  let k := number.toNat
  ⟨s.clients ++ (List.range k).map (fun i => s.nextId + i), s.lower, s.upper,
    s.nextId + k⟩

/-- Body of `MemcacheMemoryPool.shrink`'s loop: pop `k` times; popping an
empty list raises `IndexError`. -/
def popLoop : List Nat → Nat → Except PyErr (List Nat)
  | l, 0 => .ok l
  | l, k + 1 =>
    match pyPop l with
    | none => .error .indexError
    | some (_, rest) => popLoop rest k

/-- `MemcacheMemoryPool.shrink`: `for i in range(number): self._clients.pop()`
with no bound check, so it raises `IndexError` as soon as the list is empty. -/
def shrink (s : PoolState) (number : Int) : Except PyErr PoolState :=
  match popLoop s.clients number.toNat with
  | .error e => .error e
  | .ok rest => .ok ⟨rest, s.lower, s.upper, s.nextId⟩

/-- `MemcacheMemoryPool._claim_client`: grow by the default increment (one)
when `count() < lower_limit`, then `self._clients.pop()`; the pop raises
`IndexError` when the member list is empty. -/
def claim_client (s : PoolState) : Except PyErr (Nat × PoolState) :=
  let s1 := if (count s : Int) < s.lower then grow s 1 else s
  match pyPop s1.clients with
  | none => .error .indexError
  | some (c, rest) => .ok (c, ⟨rest, s1.lower, s1.upper, s1.nextId⟩)

/-- `MemcacheMemoryPool._return_client`: append the client back only when
`count() < upper_limit`; otherwise the client is silently dropped. -/
def return_client (s : PoolState) (c : Nat) : PoolState :=
  if (count s : Int) < s.upper then
    ⟨s.clients ++ [c], s.lower, s.upper, s.nextId⟩
  else s

/-- `MemcacheMemoryPool.__getitem__`: claims a client, delegates
`client[key]`, and in its `finally` block calls `self.__return_client(...)`.
No such attribute exists (the method is `_return_client`; the name-mangled
`_MemcacheMemoryPool__return_client` is never defined), so the `finally`
block always raises `AttributeError`.  In CPython the exception raised in a
`finally` replaces both the try body's return value and any in-flight
exception (including a claim failure, since the attribute lookup happens
before the unbound `client` local would be read), and the claimed member is
never re-appended.  `delegate` stands for the delegated backend call on the
claimed member. -/
def getitem {β : Type} (delegate : Nat → Except PyErr β) (s : PoolState) :
    Except PyErr β × PoolState :=
  match claim_client s with
  | .error _e => (.error .attributeError, s)
  | .ok (c, s1) =>
    let _r := delegate c
    (.error .attributeError, s1)

/-- `MemcacheMemoryPool.__setitem__`: claims a client, delegates
`client[key] = value`, and in its `finally` block calls
`self._return_client(client)`.  When the claim itself failed, `client` is an
unbound local, so the `finally` raises `UnboundLocalError` (replacing the
claim's exception); when the claim succeeded the member is re-appended via
`_return_client` whether or not the delegated call failed, and a delegated
failure is re-raised. -/
def setitem (delegate : Nat → Except PyErr Unit) (s : PoolState) :
    Except PyErr Unit × PoolState :=
  match claim_client s with
  | .error _e => (.error .unboundLocalError, s)
  | .ok (c, s1) =>
    match delegate c with
    | .error e => (.error e, return_client s1 c)
    | .ok _ => (.ok (), return_client s1 c)

/-- `MemcacheMemoryPool.__delitem__`: structurally identical to
`__setitem__` (claim, delegate `client.__delitem__(key)`, return the member
in the `finally`). -/
def delitem (delegate : Nat → Except PyErr Unit) (s : PoolState) :
    Except PyErr Unit × PoolState :=
  match claim_client s with
  | .error _e => (.error .unboundLocalError, s)
  | .ok (c, s1) =>
    match delegate c with
    | .error e => (.error e, return_client s1 c)
    | .ok _ => (.ok (), return_client s1 c)

/-! ## The memcache gateway (`MemcacheMemory`, memtools/storages/memcache.py) -/

/-- Modelled behaviour of the external `memcache.Client` store: what each key
currently holds, if anything.  `python-memcached` pickles and unpickles
values transparently, so entries are `PyObj`s. -/
def MCStore : Type := String → Option PyObj

/-- `memcache.Client.get`: returns the stored value, or `None` when the key
is missing — which is why a stored `None` would be indistinguishable from a
miss, the ambiguity the `NotSet` sentinel exists to remove. -/
def mcClientGet (st : MCStore) (k : String) : PyObj :=
  (st k).getD .pyNone

/-- `memcache.Client.set`: stores the value under the key (the TTL argument
does not affect the claims). -/
def mcClientSet (st : MCStore) (k : String) (v : PyObj) : MCStore :=
  fun k2 => if k2 = k then some v else st k2

/-- `memcache.Client.delete`: removes the key and reports how many keys were
removed (1 when present, 0 when missing), the return value
`MemcacheMemory.__delitem__` tests against 0. -/
def mcClientDelete (st : MCStore) (k : String) : Nat × MCStore :=
  match st k with
  | some _ => (1, fun k2 => if k2 = k then none else st k2)
  | none => (0, st)

/-- `MemcacheMemory.__getitem__`: `value = self._client.get(key)`; a
`NotSet` instance decodes to `None`, a `None` result means the key is absent
and raises `KeyError`, anything else is returned as-is. -/
def mcGateGet (st : MCStore) (k : String) : Except PyErr PyObj :=
  let value := mcClientGet st k
  if isNotSet value then .ok .pyNone
  else if isNone value then .error .keyError
  else .ok value

/-- `MemcacheMemory.__setitem__`: a `None` value is replaced by a `NotSet()`
instance before being handed to the client. -/
def mcGateSet (st : MCStore) (k : String) (v : PyObj) : MCStore :=
  let v2 := if isNone v then .pyNotSet else v
  mcClientSet st k v2

/-- `MemcacheMemory.__delitem__`: raises `KeyError` when the client reports
zero removed keys. -/
def mcGateDel (st : MCStore) (k : String) : Except PyErr MCStore :=
  let r := mcClientDelete st k
  if r.1 = 0 then .error .keyError else .ok r.2

/-- Composite scenario used by the round-trip claim: delete a key, then read
it back (propagating a delete failure). -/
def mcDelThenGet (st : MCStore) (k : String) : Except PyErr PyObj :=
  match mcGateDel st k with
  | .error e => .error e
  | .ok st2 => mcGateGet st2 k

/-! ## The redis gateway (`RedisMemory`, memtools/storages/pyredis.py) -/

/-- Model of `pickle.dumps`: an injective wrapping of the value. -/
inductive Pickled where
  | dumps (v : PyObj)

/-- Model of `pickle.loads`, inverse of `Pickled.dumps`. -/
def loads : Pickled → PyObj
  | .dumps v => v

/-- Modelled behaviour of the external `redis.Redis` store: the pickled
bytes each key currently holds, if anything; `get` on a missing key gives
`None`. -/
def RStore : Type := String → Option Pickled

/-- `RedisMemory.__getitem__`: `value = self._client.get(key)`; `None` means
missing and raises `KeyError`, otherwise the bytes are unpickled and
returned. -/
def rGateGet (st : RStore) (k : String) : Except PyErr PyObj :=
  match st k with
  | none => .error .keyError
  | some p => .ok (loads p)

/-- `RedisMemory.__setitem__`: `self._client.set(key, dumps(value))` — note
there is no `None`-to-`NotSet` substitution in this gateway (the `expire`
call does not affect the claims). -/
def rGateSet (st : RStore) (k : String) (v : PyObj) : RStore :=
  fun k2 => if k2 = k then some (.dumps v) else st k2

/-- `redis.Redis.delete`: removes the key and reports how many keys were
removed. -/
def rClientDelete (st : RStore) (k : String) : Nat × RStore :=
  match st k with
  | some _ => (1, fun k2 => if k2 = k then none else st k2)
  | none => (0, st)

/-- `RedisMemory.__delitem__`: raises `KeyError` when the client reports
zero removed keys. -/
def rGateDel (st : RStore) (k : String) : Except PyErr RStore :=
  let r := rClientDelete st k
  if r.1 = 0 then .error .keyError else .ok r.2

/-- Composite scenario used by the round-trip claim: delete a key, then read
it back (propagating a delete failure). -/
def rDelThenGet (st : RStore) (k : String) : Except PyErr PyObj :=
  match rGateDel st k with
  | .error e => .error e
  | .ok st2 => rGateGet st2 k

/-! ## Key derivation and memoization (`Memoized`, memtools/pattern.py;
duplicated as `Memorized` in memory.py) -/

/-- `Memoized.__create_key(self, f, *args, **kwargs)`: seeds the pluggable
hash with `f.__name__`, updates it with `str(arg)` for each positional
argument, then with `"|"`, and then iterates the keyword arguments.  The
loop body is `the_hash.update("%s:%s;".__mod__(key, val))`; `str.__mod__`
takes exactly one argument, so the first iteration over a non-empty
`kwargs` raises `TypeError`.  The hash object is modelled as an ideal
accumulator: the "hex digest" is the seed-and-update trace. -/
def createKey (fname : String) (args : List PyObj)
    (kwargs : List (String × PyObj)) : Except PyErr (List String) :=
  let h0 := [fname]
  let h1 := h0 ++ args.map pyStr
  let h2 := h1 ++ ["|"]
  match kwargs with
  | [] => .ok h2
  | _ :: _ => .error .typeError

/-- Key derivation as performed by `Memoized.__call__`:
`self.__create_key(self.__f, args, kwargs)` passes the caller's positional
tuple and keyword dict as two positional arguments, leaving `__create_key`'s
own `**kwargs` empty. -/
def callKey (fname : String) (args : List PyObj)
    (kwargs : List (String × PyObj)) : Except PyErr (List String) :=
  createKey fname [.pyTuple args, .pyDict kwargs] []

/-- Lookup in the memo store (`self.__memo[key]`), modelled with dictionary
semantics: `none` is the `KeyError` case the wrapper catches. -/
def lookupMemo : List (List String × PyObj) → List String → Option PyObj
  | [], _ => none
  | (k, v) :: rest, key => if k = key then some v else lookupMemo rest key

/-- Store into the memo (`self.__memo[key] = val`): the new binding shadows
any previous one. -/
def setMemo (memo : List (List String × PyObj)) (key : List String)
    (v : PyObj) : List (List String × PyObj) :=
  (key, v) :: memo

/-- `Memoized.__call__`: derive the key from the call's argument tuple and
keyword dict, try the memo, and on `KeyError` invoke the wrapped computation
`f`, store the result, and return it.  The result records the produced
value, the memo afterwards, and how many times `f` was invoked. -/
def memoizedCall (f : List PyObj → List (String × PyObj) → PyObj)
    (fname : String) (memo : List (List String × PyObj))
    (args : List PyObj) (kwargs : List (String × PyObj)) :
    Except PyErr (PyObj × List (List String × PyObj) × Nat) :=
  match callKey fname args kwargs with
  | .error e => .error e
  | .ok key =>
    match lookupMemo memo key with
    | some v => .ok (v, memo, 0)
    | none =>
      let val := f args kwargs
      .ok (val, setMemo memo key val, 1)

/-! ## Helper lemmas -/

/-- Popping fails exactly on the empty list. -/
theorem pyPop_eq_none {l : List Nat} : pyPop l = none ↔ l = [] := by
  cases l <;> simp [pyPop]

/-- A successful pop removes exactly one element. -/
theorem pyPop_some_length {l : List Nat} {c : Nat} {rest : List Nat}
    (h : pyPop l = some (c, rest)) : rest.length + 1 = l.length := by
  cases l with
  | nil => exact absurd h (by simp [pyPop])
  | cons a as =>
    simp only [pyPop, Option.some.injEq, Prod.mk.injEq] at h
    obtain ⟨-, hrest⟩ := h
    subst hrest
    simp [List.length_dropLast]

/-- Popping a list that ends in `x` yields `x` and the front of the list. -/
theorem pyPop_append_singleton (l : List Nat) (x : Nat) :
    pyPop (l ++ [x]) = some (x, l) := by
  cases l with
  | nil => rfl
  | cons a as =>
    simp only [List.cons_append, pyPop, Option.some.injEq, Prod.mk.injEq]
    constructor
    · exact List.getLast_append_singleton (a :: as)
    · exact @List.dropLast_concat Nat (a :: as) x

/-- When the pool is not below its low-water mark, a successful
`_claim_client` removes exactly one member and leaves the limits
unchanged. -/
theorem claim_client_ok {s : PoolState} {cl : Nat} {s' : PoolState}
    (hnogrow : ¬ ((count s : Int) < s.lower))
    (h : claim_client s = .ok (cl, s')) :
    s'.clients.length + 1 = s.clients.length
      ∧ s'.lower = s.lower ∧ s'.upper = s.upper := by
  simp only [claim_client, if_neg hnogrow] at h
  cases hp : pyPop s.clients with
  | none => rw [hp] at h; exact absurd h (by simp)
  | some pr =>
    obtain ⟨c2, rest⟩ := pr
    rw [hp] at h
    simp only [Except.ok.injEq, Prod.mk.injEq] at h
    obtain ⟨-, hs'⟩ := h
    subst hs'
    exact ⟨pyPop_some_length hp, rfl, rfl⟩

deriving instance DecidableEq for Except

/-! ## Claim theorems -/

/-- C1: the pool's `__getitem__` does NOT release the claimed member.  On the
pool built with `lower_limit = 1`, `upper_limit = 3` (two idle members) and a
delegated lookup that succeeds, `__getitem__` raises `AttributeError` (its
`finally` block calls the nonexistent `__return_client`) and the claimed
member is permanently lost: the idle pool drops from two members to one. -/
theorem pool_get_loses_member :
    getitem (fun _ => Except.ok ()) (mkPool 1 3)
      = (Except.error PyErr.attributeError, ⟨[0], 1, 3, 2⟩)
    ∧ count (mkPool 1 3) = 2
    ∧ count (⟨[0], 1, 3, 2⟩ : PoolState) = 1 := by
  decide

/-- C3: `shrink` raises rather than clamping.  On a pool with zero members
(`lower_limit = 0`, `upper_limit = 0`), `shrink(1)` pops an empty list and
raises `IndexError` instead of removing `min(1, 0) = 0` members. -/
theorem shrink_empty_raises :
    shrink (mkPool 0 0) 1 = .error .indexError
    ∧ count (mkPool 0 0) = 0 := by
  decide

/-- C7: key derivation with a non-empty keyword set raises `TypeError`
(`"%s:%s;".__mod__(key, val)` passes two arguments to the one-argument
`str.__mod__`), in either keyword order, so `derive_key` does not return a
key at all on the claim's inputs; the identity-separation half does hold for
empty keyword sets (`"f"` and `"g"` give different digests). -/
theorem derive_key_kwargs_type_error :
    createKey "f" [.pyInt 1, .pyInt 2] [("a", .pyInt 1), ("b", .pyInt 2)]
      = .error .typeError
    ∧ createKey "f" [.pyInt 1, .pyInt 2] [("b", .pyInt 2), ("a", .pyInt 1)]
      = .error .typeError
    ∧ createKey "f" [.pyInt 1, .pyInt 2] []
      ≠ createKey "g" [.pyInt 1, .pyInt 2] [] := by
  refine ⟨rfl, rfl, by decide⟩

/-- C10: `__call__` hands `__create_key` the positional tuple and keyword
dict as two positional values, so `__create_key`'s own `kwargs` is empty.
The keyword-hashing loop would raise `TypeError` on any non-empty `kwargs`
(first conjunct), but is unreachable from `__call__`: the derived key is
always the digest of the hash seeded with `f.__name__` and updated with
`str(args)`, `str(kwargs)` and `"|"`, and key creation never raises (second
conjunct). -/
theorem call_key_never_raises (fname : String) (pos : List PyObj)
    (p : String × PyObj) (rest : List (String × PyObj))
    (args : List PyObj) (kwargs : List (String × PyObj)) :
    createKey fname pos (p :: rest) = .error .typeError
    ∧ callKey fname args kwargs
      = .ok [fname, pyStr (.pyTuple args), pyStr (.pyDict kwargs), "|"] :=
  ⟨rfl, rfl⟩

/-- C8: against an initially empty memo, two invocations of the memoized
wrapper with identical arguments call the wrapped computation exactly once:
the first call computes `f args kwargs`, stores it under the derived key and
reports one invocation; the second call finds the stored value and reports
zero invocations, returning the same value. -/
theorem memoized_invokes_f_once (f : List PyObj → List (String × PyObj) → PyObj)
    (fname : String) (args : List PyObj) (kwargs : List (String × PyObj)) :
    memoizedCall f fname [] args kwargs
      = .ok (f args kwargs,
          [([fname, pyStr (.pyTuple args), pyStr (.pyDict kwargs), "|"],
            f args kwargs)], 1)
    ∧ memoizedCall f fname
        [([fname, pyStr (.pyTuple args), pyStr (.pyDict kwargs), "|"],
          f args kwargs)] args kwargs
      = .ok (f args kwargs,
          [([fname, pyStr (.pyTuple args), pyStr (.pyDict kwargs), "|"],
            f args kwargs)], 0) := by
  refine ⟨rfl, ?_⟩
  simp [memoizedCall, callKey, createKey, lookupMemo]

/-- C2 (counterexample): not every pool operation preserves the idle bound.
The pool constructed with `lower_limit = 0`, `upper_limit = 0` is idle and
within bounds, yet `grow(1)` (which never consults `upper_limit`) pushes
`count()` above `upper_limit`. -/
theorem pool_bounds_grow_cex :
    ((mkPool 0 0).lower ≤ (count (mkPool 0 0) : Int)
      ∧ (count (mkPool 0 0) : Int) ≤ (mkPool 0 0).upper)
    ∧ ¬ ((count (grow (mkPool 0 0) 1) : Int) ≤ (mkPool 0 0).upper) := by
  decide

/-- C2 (amended): given `0 ≤ lower_limit ≤ upper_limit`, the constructor
establishes `lower_limit ≤ count() ≤ upper_limit`; from an idle in-bounds
state, a successful claim followed by release restores `count()` and hence
preserves the bound; and release when `count() == upper_limit` does not
insert the member.  (`grow`, `shrink` and the pool's `get` gateway operation
do not preserve the bound.) -/
theorem pool_idle_bounds (l u : Int) (s : PoolState) (c cl : Nat)
    (s' : PoolState)
    (h0 : 0 ≤ l) (hlu : l ≤ u) (hsl : s.lower = l) (hsu : s.upper = u)
    (hi1 : l ≤ (count s : Int)) (hi2 : (count s : Int) ≤ u)
    (hclaim : claim_client s = .ok (cl, s')) :
    (l ≤ (count (mkPool l u) : Int) ∧ (count (mkPool l u) : Int) ≤ u)
    ∧ (l ≤ (count (return_client s' cl) : Int)
        ∧ (count (return_client s' cl) : Int) ≤ u)
    ∧ ((count s : Int) = u → count (return_client s c) = count s) := by
  have hng : ¬ ((count s : Int) < s.lower) := by rw [hsl]; omega
  obtain ⟨hlen, hl2, hu2⟩ := claim_client_ok hng hclaim
  refine ⟨?_, ?_, ?_⟩
  · simp only [mkPool, count, List.length_range]
    omega
  · have hcond : (count s' : Int) < s'.upper := by
      rw [hu2, hsu]
      simp only [count] at hi2 ⊢
      omega
    rw [return_client, if_pos hcond]
    simp only [count, List.length_append, List.length_cons,
      List.length_nil] at hi1 hi2 ⊢
    omega
  · intro hfull
    rw [return_client, if_neg (by rw [hsu]; omega)]

/-- C2 (witness): the amended bound at `lower_limit = 1`, `upper_limit = 2`:
the constructor yields one member, and claiming it then releasing it leaves
one member, inside the bounds. -/
theorem pool_idle_bounds_witness :
    ((1 : Int) ≤ (count (mkPool 1 2) : Int) ∧ (count (mkPool 1 2) : Int) ≤ 2)
    ∧ ((1 : Int) ≤ (count (return_client ⟨[], 1, 2, 1⟩ 0) : Int)
        ∧ (count (return_client ⟨[], 1, 2, 1⟩ 0) : Int) ≤ 2)
    ∧ ((count (mkPool 1 2) : Int) = 2
        → count (return_client (mkPool 1 2) 5) = count (mkPool 1 2)) :=
  pool_idle_bounds 1 2 (mkPool 1 2) 5 0 ⟨[], 1, 2, 1⟩ (by decide) (by decide)
    rfl rfl (by decide) (by decide) (by decide)

/-- C4 (counterexample): on the empty pool with both limits zero,
`_claim_client` raises `IndexError` (from popping the empty member list),
which is not a `PoolExhausted` error; indeed no `PoolExhausted` class exists
anywhere in the source. -/
theorem claim_not_pool_exhausted :
    claim_client (mkPool 0 0) = .error .indexError
    ∧ PyErr.indexError ≠ PyErr.poolExhausted := by
  decide

/-- C4 (amended): `_claim_client` fails exactly when no member can be
supplied even after the growth attempt — that is, when the pool is empty and
the low-water growth does not trigger — but the failure is `IndexError`
(popping an empty list), not a dedicated `PoolExhausted` error. -/
theorem claim_error_iff (s : PoolState) :
    claim_client s = .error .indexError ↔ (count s = 0 ∧ s.lower ≤ 0) := by
  by_cases hg : (count s : Int) < s.lower
  · have hgrow : (grow s 1).clients = s.clients ++ [s.nextId] := by
      simp [grow, show List.range 1 = [0] from rfl]
    simp only [claim_client, if_pos hg]
    rw [hgrow, pyPop_append_singleton]
    simp only [reduceCtorEq, false_iff, not_and]
    intro h1
    rw [h1] at hg
    omega
  · simp only [claim_client, if_neg hg]
    cases hc : s.clients with
    | nil =>
      have hcount : count s = 0 := by simp [count, hc]
      rw [hcount] at hg
      simp only [pyPop, true_iff]
      exact ⟨hcount, by omega⟩
    | cons a as =>
      have hcount : count s = as.length + 1 := by simp [count, hc]
      simp only [pyPop, reduceCtorEq, false_iff, not_and]
      intro h1
      rw [h1] at hcount
      omega

/-- C5 (counterexample): the pool built with `lower_limit = 1`,
`upper_limit = 3` is idle with two members; for `n = 1` (inside the limits),
`grow(n - count())` is `grow(-1)`, whose `range` is empty, so `count()`
stays 2 instead of becoming 1. -/
theorem grow_negative_noop_cex :
    ((mkPool 1 3).lower ≤ (1 : Int) ∧ (1 : Int) ≤ (mkPool 1 3).upper)
    ∧ count (grow (mkPool 1 3) (1 - (count (mkPool 1 3) : Int))) = 2
    ∧ (2 : Nat) ≠ 1 := by
  decide

/-- C5 (amended): for every pool state and every target `n` with
`count() ≤ n`, `grow(n - count())` brings `count()` to exactly `n`; when
`n < count()`, `grow(n - count())` iterates over an empty `range` and leaves
`count()` unchanged. -/
theorem grow_to_target (s : PoolState) (n : Int) :
    ((count s : Int) ≤ n → (count (grow s (n - count s)) : Int) = n)
    ∧ (n < (count s : Int) → count (grow s (n - count s)) = count s) := by
  simp only [grow, count, List.length_append, List.length_map,
    List.length_range]
  constructor <;> intro h <;> omega

/-- C5 (witness): growing the two-member pool to the in-range target `n = 3`
via `grow(3 - count())` yields `count() = 3`. -/
theorem grow_to_target_witness :
    (count (grow (mkPool 1 3) (3 - (count (mkPool 1 3) : Int))) : Int) = 3 :=
  (grow_to_target (mkPool 1 3) 3).1 (by decide)

/-- C6 (counterexample): the redis gateway does not use the NotSet-sentinel
encoding.  Writing the absence value through `RedisMemory.__setitem__`
stores the pickled `None` itself — not a pickled `NotSet` sentinel — because
`pyredis.py`'s `__setitem__` has no `None` check before `dumps`. -/
theorem redis_none_not_sentinel_cex :
    (rGateSet (fun _ => none) "k" PyObj.pyNone) "k"
      = some (Pickled.dumps PyObj.pyNone)
    ∧ Pickled.dumps PyObj.pyNone ≠ Pickled.dumps PyObj.pyNotSet := by
  constructor
  · simp [rGateSet]
  · intro h
    injection h with h2
    exact PyObj.noConfusion h2

/-- C6 (amended): for every serializable value `v` (in particular the
absence value `None`, but not the sentinel itself), both gateways
round-trip: `get` after `set` returns `v`; the memcache gateway writes
`None` as the `NotSet` sentinel and decodes it back, while the redis
gateway stores the pickled `None` directly (distinguishing it from a miss
by the backend's missing-key signal); after a `delete`, `get` fails with
`KeyError`; and a missing backend entry makes `get` fail with `KeyError`
rather than return the absence value. -/
theorem gateway_roundtrip (mst : MCStore) (rst : RStore) (k : String)
    (v : PyObj) (hv : isNotSet v = false) :
    mcGateGet (mcGateSet mst k v) k = .ok v
    ∧ (isNone v = true → mcGateSet mst k v k = some PyObj.pyNotSet)
    ∧ mcDelThenGet (mcGateSet mst k v) k = .error .keyError
    ∧ (mst k = none → mcGateGet mst k = .error .keyError)
    ∧ rGateGet (rGateSet rst k v) k = .ok v
    ∧ rGateSet rst k v k = some (Pickled.dumps v)
    ∧ rDelThenGet (rGateSet rst k v) k = .error .keyError
    ∧ (rst k = none → rGateGet rst k = .error .keyError) := by
  refine ⟨?_, ?_, ?_, ?_, ?_, ?_, ?_, ?_⟩
  · cases v <;>
      simp_all [mcGateGet, mcGateSet, mcClientGet, mcClientSet, isNone,
        isNotSet]
  · intro hn
    cases v <;> simp_all [mcGateSet, mcClientSet, isNone]
  · cases v <;>
      simp_all [mcDelThenGet, mcGateDel, mcClientDelete, mcGateGet,
        mcGateSet, mcClientGet, mcClientSet, isNone, isNotSet]
  · intro hm
    simp [mcGateGet, mcClientGet, hm, isNone, isNotSet]
  · simp [rGateGet, rGateSet, loads]
  · simp [rGateSet]
  · simp [rDelThenGet, rGateDel, rClientDelete, rGateGet, rGateSet]
  · intro hm
    simp [rGateGet, hm]

/-- C6 (witness): the amended round-trip at the absence value `None` against
empty backends: the memcache gateway stores the sentinel and reads `None`
back, the redis gateway stores pickled `None` and reads `None` back, and
deleted or missing keys fail with `KeyError`. -/
theorem gateway_roundtrip_witness :
    isNotSet PyObj.pyNone = false
    ∧ (mcGateGet (mcGateSet (fun _ => none) "k" PyObj.pyNone) "k"
        = .ok PyObj.pyNone
      ∧ (isNone PyObj.pyNone = true
          → mcGateSet (fun _ => none) "k" PyObj.pyNone "k"
            = some PyObj.pyNotSet)
      ∧ mcDelThenGet (mcGateSet (fun _ => none) "k" PyObj.pyNone) "k"
        = .error .keyError
      ∧ ((fun (_ : String) => (none : Option PyObj)) "k" = none
          → mcGateGet (fun _ => none) "k" = .error .keyError)
      ∧ rGateGet (rGateSet (fun _ => none) "k" PyObj.pyNone) "k"
        = .ok PyObj.pyNone
      ∧ rGateSet (fun _ => none) "k" PyObj.pyNone "k"
        = some (Pickled.dumps PyObj.pyNone)
      ∧ rDelThenGet (rGateSet (fun _ => none) "k" PyObj.pyNone) "k"
        = .error .keyError
      ∧ ((fun (_ : String) => (none : Option Pickled)) "k" = none
          → rGateGet (fun _ => none) "k" = .error .keyError)) :=
  ⟨rfl, gateway_roundtrip (fun _ => none) (fun _ => none) "k" PyObj.pyNone
    rfl⟩
